import Mathlib

/-!
Verification of the packaging manifest `src/setup.py` of the
space-agriculture-rl repository.  The module is embedded shallowly: its
two top-level statements (one import, one call to `setup(...)`) become a
list of statements over a small Python-value type, and an evaluator turns
the keyword arguments of the `setup` call into a metadata record.  The
behaviour of `setuptools.find_packages` is modelled from its documented
semantics (it reports the directories of the source tree that contain an
`__init__.py` file, as dotted package names).
-/

/-- Python expressions occurring in the manifest: string literals,
boolean literals, list literals, and calls with keyword arguments only
(the shapes that appear in `src/setup.py`). -/
inductive PyVal where
  | str (s : String)
  | bool (b : Bool)
  | list (elems : List PyVal)
  | call (fn : String) (kwargs : List (String × PyVal))

/-- Top-level Python statements.  The manifest only uses `importFrom`
and `exprStmt`; `funcDef`, `classDef` and `assign` are carried so that
their absence from the embedded module can be stated. -/
inductive PyStmt where
  | importFrom (module : String) (names : List String)
  | exprStmt (e : PyVal)
  | funcDef (name : String)
  | classDef (name : String)
  | assign (target : String) (e : PyVal)

/-- The statements of `src/setup.py`, transcribed: a line importing
`setup` and `find_packages` from setuptools, followed by one
`setup(...)` call whose keyword arguments are literal constants except
for `packages=find_packages()`. -/
def setupPyStmts : List PyStmt :=
  [ .importFrom "setuptools" ["setup", "find_packages"],
    .exprStmt (.call "setup"
      [ ("name", .str "space-agriculture-rl"),
        ("version", .str "0.1.0"),
        ("packages", .call "find_packages" []),
        ("include_package_data", .bool true),
        ("install_requires", .list
          [ .str "streamlit>=1.31.0",
            .str "pandas>=2.1.1",
            .str "numpy>=1.26.1",
            .str "matplotlib>=3.8.1",
            .str "tensorflow>=2.15.0",
            .str "kaggle>=1.5.16",
            .str "Pillow>=10.1.0" ]),
        ("author", .str "Your Name"),
        ("author_email", .str "your.email@example.com"),
        ("description", .str "Space Agriculture Reinforcement Learning System"),
        ("keywords", .str "space, agriculture, reinforcement learning, AI"),
        ("url", .str "https://github.com/yourusername/space-agriculture-rl"),
        ("classifiers", .list
          [ .str "Development Status :: 3 - Alpha",
            .str "Intended Audience :: Science/Research",
            .str "Programming Language :: Python :: 3",
            .str "Topic :: Scientific/Engineering :: Artificial Intelligence" ]) ]) ]

/-- The files of the repository: `src/` holds the single file
`setup.py`. -/
def repoFiles : List String := ["setup.py"]

/-- Splits a character list at every `/`, keeping empty groups. -/
def splitOnSlash : List Char → List (List Char)
  | [] => [[]]
  | c :: cs =>
    if c = '/' then [] :: splitOnSlash cs
    else
      match splitOnSlash cs with
      | [] => [[c]]
      | g :: gs => (c :: g) :: gs

/-- Whether a file path is an `__init__.py` inside some directory (a
path with at least one directory component whose last component is
`__init__.py`). -/
def isPackageInit (f : String) : Bool :=
  match (splitOnSlash f.data).reverse with
  | last :: _ :: _ => String.mk last == "__init__.py"
  | _ => false

/-- Dotted package name of the directory holding an `__init__.py`
file: the path components other than the final file name, joined with
dots. -/
def packageName (f : String) : String :=
  String.intercalate "." ((((splitOnSlash f.data).reverse.drop 1).reverse).map String.mk)

/-- Model of `setuptools.find_packages` applied to a source-tree file
list: the dotted names of the directories that contain an
`__init__.py` file. -/
def find_packages (files : List String) : List String :=
  (files.filter isPackageInit).map packageName

/-- Evaluated (constant) values: the only value shapes `setup` receives
in the manifest are strings, booleans and lists of strings. -/
inductive ConstVal where
  | str (s : String)
  | bool (b : Bool)
  | strList (elems : List String)

/-- Evaluation of a list element; in the manifest every list element is
a string literal. -/
def evalStr : PyVal → Option String
  | .str s => some s
  | _ => none

/-- Evaluation of a manifest expression against the repository file
list.  The only call available in expression position is
`find_packages()`; any other call is an evaluation error. -/
def evalVal (files : List String) : PyVal → Option ConstVal
  | .str s => some (.str s)
  | .bool b => some (.bool b)
  | .list elems => (elems.mapM evalStr).map .strList
  | .call "find_packages" [] => some (.strList (find_packages files))
  | .call _ _ => none

/-- Evaluates a keyword-argument list left to right. -/
def evalKwargs (files : List String) : List (String × PyVal) → Option (List (String × ConstVal))
  | [] => some []
  | (k, v) :: rest => do
    let cv ← evalVal files v
    let crest ← evalKwargs files rest
    pure ((k, cv) :: crest)

/-- The metadata record the `setup(...)` call of the manifest
declares. -/
structure SetupMetadata where
  name : String
  version : String
  packages : List String
  include_package_data : Bool
  install_requires : List String
  author : String
  author_email : String
  description : String
  keywords : String
  url : String
  classifiers : List String

/-- Keyword lookup in an evaluated argument list. -/
def lookupKw : List (String × ConstVal) → String → Option ConstVal
  | [], _ => none
  | (k, v) :: rest, key => if k = key then some v else lookupKw rest key

/-- Coercion of an evaluated value to a string. -/
def asStr : ConstVal → Option String
  | .str s => some s
  | _ => none

/-- Coercion of an evaluated value to a boolean. -/
def asBool : ConstVal → Option Bool
  | .bool b => some b
  | _ => none

/-- Coercion of an evaluated value to a list of strings. -/
def asStrList : ConstVal → Option (List String)
  | .strList xs => some xs
  | _ => none

/-- Builds the metadata record from the evaluated keyword arguments of
a `setup(...)` call; a missing or ill-typed field is an error. -/
def buildMetadata (kw : List (String × ConstVal)) : Option SetupMetadata := do
  let name ← lookupKw kw "name" >>= asStr
  let version ← lookupKw kw "version" >>= asStr
  let packages ← lookupKw kw "packages" >>= asStrList
  let ipd ← lookupKw kw "include_package_data" >>= asBool
  let reqs ← lookupKw kw "install_requires" >>= asStrList
  let author ← lookupKw kw "author" >>= asStr
  let email ← lookupKw kw "author_email" >>= asStr
  let descr ← lookupKw kw "description" >>= asStr
  let kws ← lookupKw kw "keywords" >>= asStr
  let url ← lookupKw kw "url" >>= asStr
  let cls ← lookupKw kw "classifiers" >>= asStrList
  pure { name := name, version := version, packages := packages,
         include_package_data := ipd, install_requires := reqs,
         author := author, author_email := email, description := descr,
         keywords := kws, url := url, classifiers := cls }

/-- Evaluation of one top-level statement.  It yields the list of
`setup(...)` invocations the statement performs (imports and
definitions perform none); any evaluation error yields `none`. -/
def evalStmt (files : List String) : PyStmt → Option (List SetupMetadata)
  | .importFrom _ _ => some []
  | .exprStmt (.call "setup" kwargs) => do
    let ckw ← evalKwargs files kwargs
    let m ← buildMetadata ckw
    pure [m]
  | .exprStmt e => (evalVal files e).map (fun _ => [])
  | .funcDef _ => some []
  | .classDef _ => some []
  | .assign _ e => (evalVal files e).map (fun _ => [])

/-- Evaluation of a whole module: the statements in order, collecting
every `setup(...)` invocation performed. -/
def evalModule (files : List String) (stmts : List PyStmt) : Option (List SetupMetadata) :=
  (stmts.mapM (evalStmt files)).map List.flatten

/-- Whether a statement introduces a binding: a function definition, a
class definition, or an assignment (module-level mutable state). -/
def definesBinding : PyStmt → Bool
  | .funcDef _ => true
  | .classDef _ => true
  | .assign _ _ => true
  | _ => false

/-- Whether a statement is an expression statement calling `setup`. -/
def isSetupCall : PyStmt → Bool
  | .exprStmt (.call "setup" _) => true
  | _ => false

/-- The metadata record `src/setup.py` declares, transcribed field by
field from the source. -/
def spaceAgricultureSetup : SetupMetadata :=
  { name := "space-agriculture-rl",
    version := "0.1.0",
    packages := find_packages repoFiles,
    include_package_data := true,
    install_requires :=
      [ "streamlit>=1.31.0",
        "pandas>=2.1.1",
        "numpy>=1.26.1",
        "matplotlib>=3.8.1",
        "tensorflow>=2.15.0",
        "kaggle>=1.5.16",
        "Pillow>=10.1.0" ],
    author := "Your Name",
    author_email := "your.email@example.com",
    description := "Space Agriculture Reinforcement Learning System",
    keywords := "space, agriculture, reinforcement learning, AI",
    url := "https://github.com/yourusername/space-agriculture-rl",
    classifiers :=
      [ "Development Status :: 3 - Alpha",
        "Intended Audience :: Science/Research",
        "Programming Language :: Python :: 3",
        "Topic :: Scientific/Engineering :: Artificial Intelligence" ] }

/-- Splits a character list at every `.`, keeping empty groups. -/
def splitOnDot : List Char → List (List Char)
  | [] => [[]]
  | c :: cs =>
    if c = '.' then [] :: splitOnDot cs
    else
      match splitOnDot cs with
      | [] => [[c]]
      | g :: gs => (c :: g) :: gs

/-- Accumulating decimal parser; fails on any non-digit character. -/
def parseNatAux : List Char → Nat → Option Nat
  | [], acc => some acc
  | c :: cs, acc => if c.isDigit then parseNatAux cs (10 * acc + (c.toNat - 48)) else none

/-- Parses a non-empty all-digit character list as a natural number. -/
def parseNatChars : List Char → Option Nat
  | [] => none
  | cs => parseNatAux cs 0

/-- Parses a semantic version: three dot-separated non-negative integer
components. -/
def parseSemVer (s : String) : Option (Nat × Nat × Nat) :=
  match (splitOnDot s.data).map parseNatChars with
  | [some a, some b, some c] => some (a, b, c)
  | _ => none

/-- Splits a character list at the first `>=`, returning the parts
before and after it, or `none` when no `>=` occurs. -/
def splitOnGE : List Char → Option (List Char × List Char)
  | [] => none
  | '>' :: '=' :: rest => some ([], rest)
  | c :: cs => (splitOnGE cs).map (fun p => (c :: p.1, p.2))

/-- Splits a requirement string at its `>=` operator into the package
name and the minimum version; `none` when the string carries no `>=`
constraint. -/
def reqParts (r : String) : Option (String × String) :=
  (splitOnGE r.data).map (fun p => (String.mk p.1, String.mk p.2))

/-- Number of occurrences of the two-character operator `>=`. -/
def countGE : List Char → Nat
  | [] => 0
  | '>' :: '=' :: rest => countGE rest + 1
  | _ :: rest => countGE rest

/-- Number of occurrences of a character. -/
def countChar (a : Char) : List Char → Nat
  | [] => 0
  | c :: cs => (if c = a then 1 else 0) + countChar a cs

/-- A requirement string constrains from below only: exactly one `>=`,
whose `=` is the only equals sign (so no `==` pin), and none of the
characters `<`, `~`, `!` (so no upper bound and no `~=` or `!=`). -/
def lowerBoundOnly (r : String) : Bool :=
  countGE r.data == 1 && countChar '=' r.data == 1 &&
  countChar '<' r.data == 0 && countChar '~' r.data == 0 &&
  countChar '!' r.data == 0

/-- The part of a classifier string before its first ` ::` separator. -/
def beforeSep : List Char → List Char
  | [] => []
  | ' ' :: ':' :: ':' :: _ => []
  | c :: cs => c :: beforeSep cs

/-- The category of a package-index classifier: the text before the
first ` :: ` separator. -/
def classifierCategory (s : String) : String :=
  String.mk (beforeSep s.data)

/-- Whether the first character list starts the second one. -/
def startsWithChars : List Char → List Char → Bool
  | [], _ => true
  | _ :: _, [] => false
  | p :: ps, c :: cs => p == c && startsWithChars ps cs

/-- Whether the pattern occurs as a contiguous substring. -/
def containsChars (pat : List Char) : List Char → Bool
  | [] => pat.isEmpty
  | c :: cs => startsWithChars pat (c :: cs) || containsChars pat cs

/-- Whether `pat` occurs as a contiguous substring of `s`. -/
def containsStr (pat s : String) : Bool :=
  containsChars pat.data s.data

/-- Claim C1: evaluating `src/setup.py` performs exactly one
`setup(...)` invocation, producing the constant metadata record, and
the module defines no functions, no classes (hence no data types), and
no module-level assignments (hence no mutable state). -/
theorem claim_C1 :
    evalModule repoFiles setupPyStmts = some [spaceAgricultureSetup] ∧
    setupPyStmts.countP isSetupCall = 1 ∧
    setupPyStmts.countP definesBinding = 0 :=
  ⟨rfl, rfl, rfl⟩

/-- Claim C2: the build descriptor declares the project name
`space-agriculture-rl`, the version string `0.1.0`, and author/contact
metadata fields. -/
theorem claim_C2 :
    spaceAgricultureSetup.name = "space-agriculture-rl" ∧
    spaceAgricultureSetup.version = "0.1.0" ∧
    spaceAgricultureSetup.author = "Your Name" ∧
    spaceAgricultureSetup.author_email = "your.email@example.com" :=
  ⟨rfl, rfl, rfl, rfl⟩

/-- Claim C3: the descriptor declares exactly seven runtime
dependencies, one each for streamlit, pandas, numpy, matplotlib,
tensorflow, kaggle and Pillow, and each entry carries a `>=`
minimum-version constraint (so `reqParts` succeeds on all of them). -/
theorem claim_C3 :
    spaceAgricultureSetup.install_requires.length = 7 ∧
    spaceAgricultureSetup.install_requires.map reqParts =
      [ some ("streamlit", "1.31.0"),
        some ("pandas", "2.1.1"),
        some ("numpy", "1.26.1"),
        some ("matplotlib", "3.8.1"),
        some ("tensorflow", "2.15.0"),
        some ("kaggle", "1.5.16"),
        some ("Pillow", "10.1.0") ] :=
  ⟨rfl, rfl⟩

/-- Claim C4: the declared version string `0.1.0` parses as a semantic
version with the three non-negative integer components 0, 1 and 0. -/
theorem claim_C4 :
    parseSemVer spaceAgricultureSetup.version = some (0, 1, 0) :=
  rfl

/-- Claim C5: the declared dependency list is non-empty. -/
theorem claim_C5 :
    spaceAgricultureSetup.install_requires.isEmpty = false ∧
    0 < spaceAgricultureSetup.install_requires.length :=
  ⟨rfl, by decide⟩

/-- Claim C6: the descriptor declares exactly four package-index
classifiers, whose categories are development status, intended
audience, programming language, and topic. -/
theorem claim_C6 :
    spaceAgricultureSetup.classifiers.length = 4 ∧
    spaceAgricultureSetup.classifiers.map classifierCategory =
      ["Development Status", "Intended Audience", "Programming Language", "Topic"] :=
  ⟨rfl, rfl⟩

/-- Claim C7: evaluating the build descriptor produces no error: the
module evaluation succeeds (returns `some`), yielding the declared
metadata. -/
theorem claim_C7 :
    (evalModule repoFiles setupPyStmts).isSome = true ∧
    evalModule repoFiles setupPyStmts = some [spaceAgricultureSetup] :=
  ⟨rfl, rfl⟩

/-- Claim C8: applied to this repository, whose file list contains no
`__init__.py` in any directory, `find_packages` returns the empty
list, so the declared distribution contains zero Python packages. -/
theorem claim_C8 :
    find_packages repoFiles = [] ∧ spaceAgricultureSetup.packages = [] :=
  ⟨rfl, rfl⟩

/-- Claim C9: every declared dependency carries a lower bound only:
exactly one `>=` operator and no `<`, `~=`, `!=` or `==` operator. -/
theorem claim_C9 :
    spaceAgricultureSetup.install_requires.all lowerBoundOnly = true :=
  rfl

/-- Claim C10: the declared author/contact metadata consists of
template placeholders: author `Your Name`, author_email
`your.email@example.com`, and a url containing the segment
`yourusername`. -/
theorem claim_C10 :
    spaceAgricultureSetup.author = "Your Name" ∧
    spaceAgricultureSetup.author_email = "your.email@example.com" ∧
    containsStr "yourusername" spaceAgricultureSetup.url = true :=
  ⟨rfl, rfl, rfl⟩
